import Mathlib

/-!
Shallow embedding of `src/firmware/src/uavcan_node/esc_controller.cpp` (sapog
UAVCAN ESC controller) and proofs about its command-arbitration and telemetry
logic.

Modelling conventions:
* Machine floats (`float`) are modelled as `ℚ`; the code only divides,
  compares and copies them, so ordered-field reasoning suffices.
* Machine integers are `ℤ` / `ℕ`.
* A command message's payload array (`msg.cmd`, `msg.rpm`) is a `List ℤ`.
* Each call into the motor driver (`motor_set_duty_cycle`, `motor_set_rpm`,
  `motor_stop`) is recorded as a `Directive`; a callback returns the list of
  directives it issues, in order, so "exactly one directive per invocation"
  is the statement that this list has length 1.
* `uavcan::MonotonicTime` is microseconds as `ℕ`; subtraction of two
  timestamps yields a signed `ℤ` duration and `toMSec()` is C++ integer
  division, i.e. truncation towards zero (`Int.tdiv`).
-/

namespace EscController

/-- An actuation directive issued to the motor driver: mirrors the calls
`motor_set_duty_cycle(dc, ttl)`, `motor_set_rpm(rpm, ttl)`, `motor_stop()`. -/
inductive Directive where
  | setDutyCycle (dc : ℚ) (ttl_ms : ℕ)
  | setRpm (rpm : ℤ) (ttl_ms : ℕ)
  | stop
deriving DecidableEq, Repr

/-- The four configuration globals of the module, loaded once by
`init_esc_controller` from `param_pub_rate_ms`, `param_esc_index`,
`param_cmd_ttl_ms`, `param_cmd_start_dc`. -/
structure Config where
  publish_rate_ms : ℕ
  self_index : ℕ
  command_ttl_ms : ℕ
  max_dc_to_start : ℚ
deriving DecidableEq, Repr

/-- `uavcan::equipment::esc::RawCommand::FieldTypes::cmd::RawValueType::max()`:
the `cmd` field is a signed 14-bit integer, so its maximum is 8191. -/
def rawValueMax : ℤ := 8191

/-- The normalized duty cycle computed by `cb_raw_command`:
`msg.cmd[self_index] / float(RawValueType::max())`. -/
def scaled_dc (cfg : Config) (cmd : List ℤ) : ℚ :=
  ((cmd.getD cfg.self_index 0 : ℤ) : ℚ) / (rawValueMax : ℚ)

/-- `cb_raw_command`: slot-undersize guard, then the startup safety gate
`accept = (!idle) || (idle && (scaled_dc <= max_dc_to_start))`, then
`motor_set_duty_cycle` if `accept && scaled_dc > 0` else `motor_stop`.
`idle` is the value returned by `motor_is_idle()`. -/
def cb_raw_command (cfg : Config) (idle : Bool) (cmd : List ℤ) : List Directive :=
  if cmd.length ≤ cfg.self_index then
    [Directive.stop]
  else
    let s := scaled_dc cfg cmd
    let accept : Bool := (!idle) || (idle && decide (s ≤ cfg.max_dc_to_start))
    if accept && decide (0 < s) then
      [Directive.setDutyCycle s cfg.command_ttl_ms]
    else
      [Directive.stop]

/-- `cb_rpm_command`: slot-undersize guard, then `motor_set_rpm` if
`rpm > 0` else `motor_stop`. -/
def cb_rpm_command (cfg : Config) (rpm : List ℤ) : List Directive :=
  if rpm.length ≤ cfg.self_index then
    [Directive.stop]
  else
    let r := rpm.getD cfg.self_index 0
    if 0 < r then
      [Directive.setRpm r cfg.command_ttl_ms]
    else
      [Directive.stop]

/-- The `temperature` field of an `esc::Status` message: either a numeric
Kelvin value or the `quiet_NaN` sentinel the code writes for invalid
readings. -/
inductive TempField where
  | value (k : ℚ)
  | nan
deriving DecidableEq, Repr

/-- `uavcan::equipment::esc::RPMFeedback` as assembled by `cb_esc`. -/
structure FeedbackMsg where
  esc_index : ℕ
  rpm : ℤ
deriving DecidableEq, Repr

/-- `uavcan::equipment::esc::Status` as assembled by `cb_esc` (the `rpm`
field is left commented out in the source and hence omitted). -/
structure StatusMsg where
  esc_index : ℕ
  voltage : ℚ
  current : ℚ
  power_rating_pct : ℕ
  error_count : ℕ
  temperature : TempField
deriving DecidableEq, Repr

/-- The synchronous readbacks `cb_esc` queries from the motor driver and the
temperature sensor on one tick. -/
structure Readings where
  motor_rpm : ℤ
  voltage : ℚ
  current : ℚ
  duty_cycle : ℚ
  zc_failures : ℕ
  temperature_K : ℚ
deriving DecidableEq, Repr

/-- `(a - b).toMSec()` for two monotonic timestamps in microseconds:
signed subtraction followed by C++ truncating division by 1000. -/
def elapsed_msec (scheduled prev : ℕ) : ℤ :=
  ((scheduled : ℤ) - (prev : ℤ)).tdiv 1000

/-- The `esc::Status` candidate assembled by `cb_esc` on every tick:
voltage/current pass through, `power_rating_pct` is
`unsigned(duty_cycle * 100 + 0.5)`, and a negative temperature reading is
replaced by NaN. -/
def mk_status (cfg : Config) (r : Readings) : StatusMsg :=
  { esc_index := cfg.self_index
    voltage := r.voltage
    current := r.current
    power_rating_pct := (⌊r.duty_cycle * 100 + 1/2⌋).toNat
    error_count := r.zc_failures
    temperature :=
      if r.temperature_K < 0 then TempField.nan
      else TempField.value r.temperature_K }

/-- `cb_esc`: unconditionally broadcasts an `RPMFeedback`, assembles the
`Status` candidate, and broadcasts it (updating the `prev_pub_ts` watermark)
exactly when `(event.scheduled_time - prev_pub_ts).toMSec() >= 990`.
Returns (feedback broadcast, status broadcast if any, new watermark). -/
def cb_esc (cfg : Config) (prev_pub_ts : ℕ) (scheduled_time : ℕ) (r : Readings) :
    FeedbackMsg × Option StatusMsg × ℕ :=
  let fb : FeedbackMsg := { esc_index := cfg.self_index, rpm := r.motor_rpm }
  let st := mk_status cfg r
  if 990 ≤ elapsed_msec scheduled_time prev_pub_ts then
    (fb, some st, scheduled_time)
  else
    (fb, none, prev_pub_ts)

/-- The monotonic times at which `cb_esc` broadcasts a `Status` message,
over a sequence of ticks `(scheduled_time, readings)`, starting from
watermark `prev_pub_ts`. -/
def status_emission_times (cfg : Config) (prev_pub_ts : ℕ) :
    List (ℕ × Readings) → List ℕ
  | [] => []
  | (t, r) :: rest =>
    let out := cb_esc cfg prev_pub_ts t r
    if out.2.1.isSome then
      t :: status_emission_times cfg out.2.2 rest
    else
      status_emission_times cfg out.2.2 rest

/-- The four fallible setup steps of `init_esc_controller`, in program
order: `sub_raw_command.start`, `sub_rpm_command.start`,
`pub_status->init()`, `pub_rpm_fb->init()`. -/
inductive InitStep where
  | subRawStart
  | subRpmStart
  | pubStatusInit
  | pubRpmFbInit
deriving DecidableEq, Repr

/-- The result codes the four collaborator setup calls would return if
reached (the external environment of `init_esc_controller`). -/
structure InitEnv where
  raw_res : ℤ
  rpm_res : ℤ
  status_res : ℤ
  rpm_fb_res : ℤ
deriving DecidableEq, Repr

/-- What a run of `init_esc_controller` did: which setup steps were
performed, whether `timer_esc.startPeriodic` was reached, and the returned
code. -/
structure InitOutcome where
  steps : List InitStep
  timer_started : Bool
  ret : ℤ
deriving DecidableEq, Repr

/-- `init_esc_controller`: performs the four setup calls in order, returning
the first nonzero result code immediately; only if all four return 0 does it
set the timer callback, start the periodic timer, and return 0. -/
def init_esc_controller (e : InitEnv) : InitOutcome :=
  if e.raw_res ≠ 0 then
    { steps := [InitStep.subRawStart], timer_started := false, ret := e.raw_res }
  else if e.rpm_res ≠ 0 then
    { steps := [InitStep.subRawStart, InitStep.subRpmStart],
      timer_started := false, ret := e.rpm_res }
  else if e.status_res ≠ 0 then
    { steps := [InitStep.subRawStart, InitStep.subRpmStart, InitStep.pubStatusInit],
      timer_started := false, ret := e.status_res }
  else if e.rpm_fb_res ≠ 0 then
    { steps := [InitStep.subRawStart, InitStep.subRpmStart, InitStep.pubStatusInit,
                InitStep.pubRpmFbInit],
      timer_started := false, ret := e.rpm_fb_res }
  else
    { steps := [InitStep.subRawStart, InitStep.subRpmStart, InitStep.pubStatusInit,
                InitStep.pubRpmFbInit],
      timer_started := true, ret := 0 }

/-- The module-level mutable state that outlives a single handler call:
the four configuration globals (written only by `init_esc_controller`) and
the `static uavcan::MonotonicTime prev_pub_ts` watermark inside `cb_esc`. -/
structure ModuleState where
  cfg : Config
  prev_pub_ts : ℕ
deriving DecidableEq, Repr

/-- One handler invocation after initialization: a raw duty-cycle command
(with the `motor_is_idle()` readback it observes), an RPM command, or a
timer tick (with its scheduled time and sensor readbacks). -/
inductive Event where
  | rawCommand (idle : Bool) (cmd : List ℤ)
  | rpmCommand (rpm : List ℤ)
  | tick (scheduled_time : ℕ) (r : Readings)
deriving DecidableEq, Repr

/-- The effect of one handler invocation on the module state, paired with
the directives it issues to the motor driver. `cb_raw_command` and
`cb_rpm_command` assign no module global; `cb_esc` writes only
`prev_pub_ts`. -/
def handle (s : ModuleState) : Event → ModuleState × List Directive
  | Event.rawCommand idle cmd => (s, cb_raw_command s.cfg idle cmd)
  | Event.rpmCommand rpm => (s, cb_rpm_command s.cfg rpm)
  | Event.tick t r =>
    ({ s with prev_pub_ts := (cb_esc s.cfg s.prev_pub_ts t r).2.2 }, [])

/-- Folding `handle` over a sequence of handler invocations. -/
def run_events (s : ModuleState) : List Event → ModuleState
  | [] => s
  | e :: es => run_events (handle s e).1 es

/-! ## Helper lemmas (shared) -/

/-- Truncating division semantics of `toMSec`: the 990 ms threshold test on
the truncated milliseconds is the same as a 990000 µs threshold on the raw
signed duration. -/
theorem elapsed_due_iff (t prev : ℕ) :
    990 ≤ elapsed_msec t prev ↔ 990000 ≤ (t : ℤ) - (prev : ℤ) := by
  unfold elapsed_msec
  rcases le_or_lt (prev : ℤ) (t : ℤ) with h | h
  · rw [Int.tdiv_eq_ediv (by omega) (by norm_num)]
    omega
  · have hneg : (t : ℤ) - (prev : ℤ) < 0 := by omega
    constructor
    · intro hge
      exfalso
      have h1 : 0 ≤ (-((t : ℤ) - (prev : ℤ))).tdiv 1000 :=
        Int.tdiv_nonneg (by omega) (by norm_num)
      rw [Int.neg_tdiv] at h1
      omega
    · intro hge
      exact absurd hge (by omega)

/-- Behaviour of `cb_raw_command` once the undersize guard has passed. -/
theorem cb_raw_command_inbounds (cfg : Config) (idle : Bool) (cmd : List ℤ)
    (h : cfg.self_index < cmd.length) :
    cb_raw_command cfg idle cmd =
      if ((!idle) || (idle && decide (scaled_dc cfg cmd ≤ cfg.max_dc_to_start)))
          && decide (0 < scaled_dc cfg cmd)
      then [Directive.setDutyCycle (scaled_dc cfg cmd) cfg.command_ttl_ms]
      else [Directive.stop] := by
  unfold cb_raw_command
  rw [if_neg (by omega)]

/-- Behaviour of `cb_rpm_command` once the undersize guard has passed. -/
theorem cb_rpm_command_inbounds (cfg : Config) (m : List ℤ)
    (h : cfg.self_index < m.length) :
    cb_rpm_command cfg m =
      if 0 < m.getD cfg.self_index 0
      then [Directive.setRpm (m.getD cfg.self_index 0) cfg.command_ttl_ms]
      else [Directive.stop] := by
  unfold cb_rpm_command
  rw [if_neg (by omega)]

/-! ## Claim theorems -/

/-- C1: for a raw duty-cycle message with at least `self_index + 1` slots,
`cb_raw_command` issues `SetDutyCycle(scaled, ttl)` iff `scaled > 0` and
(the motor is not idle, or `scaled ≤ max_dc_to_start`); in every other case
it issues `Stop`. -/
theorem raw_command_gate (cfg : Config) (idle : Bool) (cmd : List ℤ)
    (h : cfg.self_index < cmd.length) :
    (cb_raw_command cfg idle cmd =
        [Directive.setDutyCycle (scaled_dc cfg cmd) cfg.command_ttl_ms] ↔
      0 < scaled_dc cfg cmd ∧
        (idle = false ∨ scaled_dc cfg cmd ≤ cfg.max_dc_to_start)) ∧
    (¬(0 < scaled_dc cfg cmd ∧
        (idle = false ∨ scaled_dc cfg cmd ≤ cfg.max_dc_to_start)) →
      cb_raw_command cfg idle cmd = [Directive.stop]) := by
  rw [cb_raw_command_inbounds cfg idle cmd h]
  by_cases h1 : 0 < scaled_dc cfg cmd <;>
    by_cases h2 : scaled_dc cfg cmd ≤ cfg.max_dc_to_start <;>
      cases idle <;> simp [h1, h2]

/-- C1 witness: `self_index = 0`, idle motor, raw value 4000 of 8191 with
`max_dc_to_start = 1/2` is accepted. -/
theorem raw_command_gate_witness :
    cb_raw_command ⟨40, 0, 200, 1/2⟩ true [4000] =
      [Directive.setDutyCycle (scaled_dc ⟨40, 0, 200, 1/2⟩ [4000]) 200] :=
  (raw_command_gate ⟨40, 0, 200, 1/2⟩ true [4000] (by decide)).1.mpr
    (by refine ⟨?_, Or.inr ?_⟩ <;> norm_num [scaled_dc, rawValueMax])

/-- C2: an inbound command message with fewer than `self_index + 1` slots
makes either callback issue `Stop`, whatever the slot contents and the motor
state. -/
theorem undersized_command_stops (cfg : Config) (idle : Bool)
    (cmd rpm : List ℤ)
    (hc : cmd.length ≤ cfg.self_index) (hr : rpm.length ≤ cfg.self_index) :
    cb_raw_command cfg idle cmd = [Directive.stop] ∧
    cb_rpm_command cfg rpm = [Directive.stop] := by
  constructor
  · unfold cb_raw_command
    rw [if_pos hc]
  · unfold cb_rpm_command
    rw [if_pos hr]

/-- C2 witness: `self_index = 2` with one-slot and two-slot messages. -/
theorem undersized_command_stops_witness :
    cb_raw_command ⟨40, 2, 200, 1⟩ false [8000] = [Directive.stop] ∧
    cb_rpm_command ⟨40, 2, 200, 1⟩ [100, -5] = [Directive.stop] :=
  undersized_command_stops ⟨40, 2, 200, 1⟩ false [8000] [100, -5]
    (by decide) (by decide)

/-- C3: for an RPM message with at least `self_index + 1` slots,
`cb_rpm_command` issues `SetRpm(rpm, ttl)` iff the selected slot is
positive and `Stop` otherwise; the motor idle state is not an input of the
callback at all, and the startup duty limit (and publish rate) have no
influence on the result. -/
theorem rpm_command_passthrough (cfg : Config) (m : List ℤ)
    (h : cfg.self_index < m.length) :
    (0 < m.getD cfg.self_index 0 →
      cb_rpm_command cfg m =
        [Directive.setRpm (m.getD cfg.self_index 0) cfg.command_ttl_ms]) ∧
    (m.getD cfg.self_index 0 ≤ 0 →
      cb_rpm_command cfg m = [Directive.stop]) ∧
    (∀ cfg2 : Config, cfg2.self_index = cfg.self_index →
      cfg2.command_ttl_ms = cfg.command_ttl_ms →
      cb_rpm_command cfg2 m = cb_rpm_command cfg m) := by
  refine ⟨fun hp => ?_, fun hn => ?_, fun cfg2 hi ht => ?_⟩
  · rw [cb_rpm_command_inbounds cfg m h, if_pos hp]
  · rw [cb_rpm_command_inbounds cfg m h, if_neg (by omega)]
  · unfold cb_rpm_command
    rw [hi, ht]

/-- C3 witness: slot 1 of `[100, 250]` is positive and passed through. -/
theorem rpm_command_passthrough_witness :
    cb_rpm_command ⟨40, 1, 300, 1⟩ [100, 250] = [Directive.setRpm 250 300] :=
  (rpm_command_passthrough ⟨40, 1, 300, 1⟩ [100, 250] (by decide)).1 (by decide)

/-- C4: every invocation of either command callback issues exactly one
directive to the motor driver, on every path. -/
theorem exactly_one_directive :
    (∀ (cfg : Config) (idle : Bool) (cmd : List ℤ),
      (cb_raw_command cfg idle cmd).length = 1) ∧
    (∀ (cfg : Config) (m : List ℤ), (cb_rpm_command cfg m).length = 1) := by
  constructor
  · intro cfg idle cmd
    unfold cb_raw_command
    split
    · rfl
    · dsimp only
      split <;> rfl
  · intro cfg m
    unfold cb_rpm_command
    split
    · rfl
    · dsimp only
      split <;> rfl

/-- C5: the `RPMFeedback` broadcast happens on every tick, whatever the
watermark state, the tick time and the readbacks, and always carries
`{self_index, motor_get_rpm()}`. -/
theorem feedback_every_tick (cfg : Config) (prev t : ℕ) (r : Readings) :
    (cb_esc cfg prev t r).1 =
      { esc_index := cfg.self_index, rpm := r.motor_rpm } := by
  unfold cb_esc
  split <;> rfl

/-- Strengthened induction for the decimation trace: the emission times of
a tick sequence are pairwise ≥ 990000 µs apart, and the first one is
≥ 990000 µs after the starting watermark. -/
theorem status_emission_times_sep (cfg : Config) (ticks : List (ℕ × Readings)) :
    ∀ prev : ℕ,
      List.Chain' (fun a b : ℕ => 990000 ≤ (b : ℤ) - (a : ℤ))
        (status_emission_times cfg prev ticks) ∧
      ∀ h : ℕ, (status_emission_times cfg prev ticks).head? = some h →
        990000 ≤ (h : ℤ) - (prev : ℤ) := by
  induction ticks with
  | nil =>
    intro prev
    simp [status_emission_times]
  | cons tr rest ih =>
    intro prev
    obtain ⟨t, r⟩ := tr
    by_cases hd : 990 ≤ elapsed_msec t prev
    · have hout : cb_esc cfg prev t r =
          ({ esc_index := cfg.self_index, rpm := r.motor_rpm },
            some (mk_status cfg r), t) := by
        unfold cb_esc
        rw [if_pos hd]
      have hdue : 990000 ≤ (t : ℤ) - (prev : ℤ) := (elapsed_due_iff t prev).mp hd
      have hrec : status_emission_times cfg prev ((t, r) :: rest) =
          t :: status_emission_times cfg t rest := by
        simp only [status_emission_times]
        rw [hout]
        simp
      rw [hrec]
      refine ⟨List.chain'_cons'.mpr ⟨fun h hh => ?_, (ih t).1⟩, fun h hh => ?_⟩
      · exact (ih t).2 h hh
      · simp only [List.head?_cons, Option.some.injEq] at hh
        omega
    · have hout : cb_esc cfg prev t r =
          ({ esc_index := cfg.self_index, rpm := r.motor_rpm },
            none, prev) := by
        unfold cb_esc
        rw [if_neg hd]
      have hrec : status_emission_times cfg prev ((t, r) :: rest) =
          status_emission_times cfg prev rest := by
        simp only [status_emission_times]
        rw [hout]
        simp
      rw [hrec]
      exact ih prev

/-- C6: a `Status` broadcast happens on a tick iff the raw monotonic
duration since the watermark is at least 990 ms (990000 µs); the watermark
becomes the tick time exactly on emission and is otherwise unchanged; and
over any tick sequence, consecutive `Status` emissions are at least
990 ms apart. -/
theorem status_decimation :
    (∀ (cfg : Config) (prev t : ℕ) (r : Readings),
      ((cb_esc cfg prev t r).2.1).isSome ↔ 990000 ≤ (t : ℤ) - (prev : ℤ)) ∧
    (∀ (cfg : Config) (prev t : ℕ) (r : Readings),
      (cb_esc cfg prev t r).2.2 =
        if ((cb_esc cfg prev t r).2.1).isSome then t else prev) ∧
    (∀ (cfg : Config) (prev : ℕ) (ticks : List (ℕ × Readings)),
      List.Chain' (fun a b : ℕ => 990000 ≤ (b : ℤ) - (a : ℤ))
        (status_emission_times cfg prev ticks)) := by
  refine ⟨fun cfg prev t r => ?_, fun cfg prev t r => ?_,
    fun cfg prev ticks => (status_emission_times_sep cfg ticks prev).1⟩
  · unfold cb_esc
    split
    · next h => simpa using (elapsed_due_iff t prev).mp h
    · next h =>
        have hnot : ¬ 990000 ≤ (t : ℤ) - (prev : ℤ) :=
          fun hc => h ((elapsed_due_iff t prev).mpr hc)
        simpa using hnot
  · unfold cb_esc
    split <;> rfl

/-- C7: a negative (invalid) temperature reading yields a status report
whose temperature field is the NaN sentinel — in particular it is no
numeric value, hence neither zero nor the negative reading — while the
report is still assembled and is the one broadcast when the decimation
window is due; a non-negative reading is passed through unchanged. -/
theorem temperature_nan_on_invalid (cfg : Config) (r : Readings) :
    (r.temperature_K < 0 →
      (mk_status cfg r).temperature = TempField.nan ∧
      ∀ q : ℚ, (mk_status cfg r).temperature ≠ TempField.value q) ∧
    (0 ≤ r.temperature_K →
      (mk_status cfg r).temperature = TempField.value r.temperature_K) ∧
    (∀ prev t : ℕ, 990 ≤ elapsed_msec t prev →
      (cb_esc cfg prev t r).2.1 = some (mk_status cfg r)) := by
  refine ⟨fun hneg => ?_, fun hpos => ?_, fun prev t hdue => ?_⟩
  · constructor
    · simp [mk_status, hneg]
    · intro q
      simp [mk_status, hneg]
  · simp [mk_status, not_lt.mpr hpos]
  · unfold cb_esc
    rw [if_pos hdue]

/-- C7 witness: a −1 K reading at a due tick produces a NaN temperature in
the broadcast status report. -/
theorem temperature_nan_on_invalid_witness :
    (mk_status ⟨40, 0, 200, 1⟩ ⟨0, 12, 3, 1/2, 0, -1⟩).temperature =
        TempField.nan ∧
    (cb_esc ⟨40, 0, 200, 1⟩ 0 1000000 ⟨0, 12, 3, 1/2, 0, -1⟩).2.1 =
        some (mk_status ⟨40, 0, 200, 1⟩ ⟨0, 12, 3, 1/2, 0, -1⟩) := by
  constructor
  · exact ((temperature_nan_on_invalid ⟨40, 0, 200, 1⟩
      ⟨0, 12, 3, 1/2, 0, -1⟩).1 (by norm_num)).1
  · exact (temperature_nan_on_invalid ⟨40, 0, 200, 1⟩
      ⟨0, 12, 3, 1/2, 0, -1⟩).2.2 0 1000000 (by decide)

/-- C8: `init_esc_controller` returns the first failing setup call's own
nonzero code, having performed exactly the setup steps up to and including
the failing one and without starting the timer; it returns 0 iff all four
setups succeed, and the timer is started exactly in that case. -/
theorem init_error_propagation (e : InitEnv) :
    ((init_esc_controller e).ret = 0 ↔
      e.raw_res = 0 ∧ e.rpm_res = 0 ∧ e.status_res = 0 ∧ e.rpm_fb_res = 0) ∧
    ((init_esc_controller e).timer_started = true ↔
      (init_esc_controller e).ret = 0) ∧
    (e.raw_res ≠ 0 →
      init_esc_controller e =
        { steps := [InitStep.subRawStart],
          timer_started := false, ret := e.raw_res }) ∧
    (e.raw_res = 0 → e.rpm_res ≠ 0 →
      init_esc_controller e =
        { steps := [InitStep.subRawStart, InitStep.subRpmStart],
          timer_started := false, ret := e.rpm_res }) ∧
    (e.raw_res = 0 → e.rpm_res = 0 → e.status_res ≠ 0 →
      init_esc_controller e =
        { steps := [InitStep.subRawStart, InitStep.subRpmStart,
                    InitStep.pubStatusInit],
          timer_started := false, ret := e.status_res }) ∧
    (e.raw_res = 0 → e.rpm_res = 0 → e.status_res = 0 → e.rpm_fb_res ≠ 0 →
      init_esc_controller e =
        { steps := [InitStep.subRawStart, InitStep.subRpmStart,
                    InitStep.pubStatusInit, InitStep.pubRpmFbInit],
          timer_started := false, ret := e.rpm_fb_res }) := by
  unfold init_esc_controller
  by_cases h1 : e.raw_res = 0 <;> by_cases h2 : e.rpm_res = 0 <;>
    by_cases h3 : e.status_res = 0 <;> by_cases h4 : e.rpm_fb_res = 0 <;>
      simp [h1, h2, h3, h4]

/-- C8 witness: a failure code 7 from `pub_status->init()` is propagated,
the RPM-feedback publisher is not set up and the timer is not started. -/
theorem init_error_propagation_witness :
    init_esc_controller ⟨0, 0, 7, 0⟩ =
      { steps := [InitStep.subRawStart, InitStep.subRpmStart,
                  InitStep.pubStatusInit],
        timer_started := false, ret := 7 } :=
  (init_error_propagation ⟨0, 0, 7, 0⟩).2.2.2.2.1 rfl rfl (by decide)

/-- C9: over any sequence of post-init handler invocations the four
configuration globals are never written — the final `cfg` equals the
initial one - the two command callbacks write no module state at all, and
the tick handler writes nothing but the `prev_pub_ts` watermark. -/
theorem config_never_mutated :
    (∀ (s : ModuleState) (es : List Event), (run_events s es).cfg = s.cfg) ∧
    (∀ (s : ModuleState) (idle : Bool) (cmd : List ℤ),
      (handle s (Event.rawCommand idle cmd)).1 = s) ∧
    (∀ (s : ModuleState) (rpm : List ℤ),
      (handle s (Event.rpmCommand rpm)).1 = s) ∧
    (∀ (s : ModuleState) (t : ℕ) (r : Readings),
      (handle s (Event.tick t r)).1 =
        { cfg := s.cfg,
          prev_pub_ts := (cb_esc s.cfg s.prev_pub_ts t r).2.2 }) := by
  have hstep : ∀ (s : ModuleState) (e : Event), (handle s e).1.cfg = s.cfg := by
    intro s e
    cases e <;> rfl
  refine ⟨fun s es => ?_, fun s idle cmd => rfl, fun s rpm => rfl,
    fun s t r => rfl⟩
  induction es generalizing s with
  | nil => rfl
  | cons e es ih => rw [run_events, ih, hstep]

/-- C10: the directive issued for an in-bounds message depends only on the
slot at `self_index` (and, for raw commands, the motor idle state): two
messages agreeing at that slot produce identical directives, whatever their
other slots or lengths. -/
theorem directive_depends_only_on_slot :
    (∀ (cfg : Config) (idle : Bool) (m1 m2 : List ℤ),
      cfg.self_index < m1.length → cfg.self_index < m2.length →
      m1.getD cfg.self_index 0 = m2.getD cfg.self_index 0 →
      cb_raw_command cfg idle m1 = cb_raw_command cfg idle m2) ∧
    (∀ (cfg : Config) (m1 m2 : List ℤ),
      cfg.self_index < m1.length → cfg.self_index < m2.length →
      m1.getD cfg.self_index 0 = m2.getD cfg.self_index 0 →
      cb_rpm_command cfg m1 = cb_rpm_command cfg m2) := by
  constructor
  · intro cfg idle m1 m2 h1 h2 heq
    rw [cb_raw_command_inbounds cfg idle m1 h1,
        cb_raw_command_inbounds cfg idle m2 h2]
    unfold scaled_dc
    rw [heq]
  · intro cfg m1 m2 h1 h2 heq
    rw [cb_rpm_command_inbounds cfg m1 h1, cb_rpm_command_inbounds cfg m2 h2,
        heq]

/-- C10 witness: `[0, 5000, 7000]` and `[8191, 5000]` agree at slot 1 and
produce the same directive; likewise for two RPM messages agreeing at
slot 1. -/
theorem directive_depends_only_on_slot_witness :
    cb_raw_command ⟨40, 1, 200, 1⟩ true [0, 5000, 7000] =
      cb_raw_command ⟨40, 1, 200, 1⟩ true [8191, 5000] ∧
    cb_rpm_command ⟨40, 1, 200, 1⟩ [-3, 120, 9] =
      cb_rpm_command ⟨40, 1, 200, 1⟩ [999, 120] := by
  constructor
  · exact directive_depends_only_on_slot.1 ⟨40, 1, 200, 1⟩ true
      [0, 5000, 7000] [8191, 5000] (by decide) (by decide) (by decide)
  · exact directive_depends_only_on_slot.2 ⟨40, 1, 200, 1⟩
      [-3, 120, 9] [999, 120] (by decide) (by decide) (by decide)

end EscController
